import Mathlib

/-!
Verification development for the `autism_detection` repository
(behavioral signal processing and risk aggregation engine).

Shallow-embedding conventions used throughout this file:

* Python floats are modelled as exact rationals (`ℚ`); values produced by a
  square root (Euclidean distances) live in `ℝ` via `Real.sqrt`.
* The bounded gaze-history deque (`collections.deque(maxlen=100)`, appended at
  the right, indexed from the right as `history[-1]`) is modelled as a Lean
  list with the NEWEST sample at the head; the Python backward iteration over
  the deque is therefore a forward traversal of the tail, and an append with
  eviction is `(p :: h).take 100`.
* Threshold comparisons that the source performs on a square-rooted distance
  are performed here on the squared distance against the squared threshold;
  the lemma `fixation_guard_faithful` shows the two guards are equivalent.
* Dictionaries keyed by question identifiers are association lists over an
  enumerated `Question` type with first-match lookup.
-/

/-- A 2D point (pixel or normalized coordinates), as a pair of rationals. -/
abbrev Point : Type := ℚ × ℚ

/-- Squared Euclidean distance between two points.  The source computes
`math.sqrt((x1-x2)**2 + (y1-y2)**2)`; we keep the radicand. -/
def distSq (p q : Point) : ℚ :=
  (p.1 - q.1) ^ 2 + (p.2 - q.2) ^ 2

/-- The Euclidean distance itself (`math.sqrt` of `distSq`). -/
noncomputable def euclid_dist (p q : Point) : ℝ :=
  Real.sqrt ((distSq p q : ℚ) : ℝ)

/-- `GazeAnalyzer.fixation_threshold = 50` pixels. -/
def fixation_threshold : ℚ := 50

/-- The inner loop of `GazeAnalyzer._calculate_fixation_duration`: walk the
earlier samples (tail of the newest-first history), and for each sample whose
distance to the newest sample does not exceed the 50 px threshold add 33 ms;
break at the first sample strictly beyond the threshold.  The source guard is
`distance > 50` on the rooted distance; here it is `2500 < distSq` on the
squared distance (equivalent, see `fixation_guard_faithful`). -/
def fixation_scan (current : Point) : List Point → ℕ
  | [] => 0
  | p :: rest =>
      if fixation_threshold ^ 2 < distSq current p then 0
      else 33 + fixation_scan current rest

/-- `GazeAnalyzer._calculate_fixation_duration`: returns 0 for histories with
fewer than 2 samples, otherwise scans backward from the newest sample. -/
def calculate_fixation_duration (gaze_history : List Point) : ℕ :=
  if gaze_history.length < 2 then 0
  else
    match gaze_history with
    | [] => 0
    | current :: rest => fixation_scan current rest

/-- The fixation-duration algorithm as the specification claim words it:
scan backward, accumulate 33 ms for each CONSECUTIVE pair of samples whose
distance is strictly below the 50 px threshold, stop at the first pair at or
above the threshold.  Kept only for comparison against the source behaviour
(`calculate_fixation_duration`). -/
def claimed_fixation_duration : List Point → ℕ
  | p :: q :: rest =>
      if distSq p q < fixation_threshold ^ 2
      then 33 + claimed_fixation_duration (q :: rest)
      else 0
  | _ => 0

/-- `GazeAnalyzer._calculate_saccade_amplitude`: Euclidean distance between
the two most recent samples, 0 when fewer than 2 samples exist. -/
noncomputable def calculate_saccade_amplitude (gaze_history : List Point) : ℝ :=
  if gaze_history.length < 2 then 0
  else
    match gaze_history with
    | current :: prev :: _ => euclid_dist current prev
    | _ => 0

/-- Fidelity of the squared-threshold guard: the source breaks the fixation
scan when `sqrt (distSq) > 50`; this is equivalent to `2500 < distSq`. -/
theorem fixation_guard_faithful (p q : Point) :
    fixation_threshold ^ 2 < distSq p q ↔ (50 : ℝ) < euclid_dist p q := by
  have hnn : (0 : ℝ) ≤ (50 : ℝ) := by norm_num
  rw [euclid_dist, Real.lt_sqrt hnn]
  constructor
  · intro h
    have : ((fixation_threshold ^ 2 : ℚ) : ℝ) < ((distSq p q : ℚ) : ℝ) := by
      exact_mod_cast h
    calc (50 : ℝ) ^ 2 = ((fixation_threshold ^ 2 : ℚ) : ℝ) := by
          norm_num [fixation_threshold]
      _ < _ := this
  · intro h
    have : ((fixation_threshold ^ 2 : ℚ) : ℝ) < ((distSq p q : ℚ) : ℝ) := by
      calc ((fixation_threshold ^ 2 : ℚ) : ℝ) = (50 : ℝ) ^ 2 := by
            norm_num [fixation_threshold]
        _ < _ := h
    exact_mod_cast this

/-- Helper: the backward scan accumulates 33 ms for exactly the longest run of
earlier samples all within the threshold of the newest sample. -/
theorem fixation_scan_eq_takeWhile (c : Point) (rest : List Point) :
    fixation_scan c rest =
      33 * (rest.takeWhile (fun p => decide (distSq c p ≤ fixation_threshold ^ 2))).length := by
  induction rest with
  | nil => simp [fixation_scan]
  | cons p rest ih =>
      by_cases h : distSq c p ≤ fixation_threshold ^ 2
      · rw [fixation_scan, if_neg (not_lt.mpr h), List.takeWhile_cons, if_pos (by simpa using h)]
        simp [ih]; ring
      · rw [fixation_scan, if_pos (lt_of_not_le h), List.takeWhile_cons, if_neg (by simpa using h)]
        simp

/-- Helper: histories with fewer than 2 samples produce a zero fixation
duration (the early return of the source). -/
theorem fixation_duration_short (gaze_history : List Point)
    (hlen : gaze_history.length < 2) : calculate_fixation_duration gaze_history = 0 := by
  rw [calculate_fixation_duration.eq_def, if_pos hlen]

/-- Claim C1 (amended): fixation duration scans the gaze history backward from
the newest sample, accumulating a fixed 33 ms for each earlier sample whose
Euclidean pixel distance FROM THE NEWEST SAMPLE is at most the 50 px fixation
threshold (boundary inclusive), stopping at the first earlier sample whose
distance from the newest sample strictly exceeds the threshold or at history
exhaustion; for every history with fewer than 2 samples it returns 0. -/
theorem claim_C1_fixation_duration :
    (∀ (current : Point) (rest : List Point),
        calculate_fixation_duration (current :: rest) =
          33 * (rest.takeWhile
                  (fun p => decide (distSq current p ≤ fixation_threshold ^ 2))).length)
    ∧ ∀ gaze_history : List Point,
        gaze_history.length < 2 → calculate_fixation_duration gaze_history = 0 := by
  constructor
  · intro current rest
    cases rest with
    | nil => simp [calculate_fixation_duration]
    | cons q rest =>
        rw [calculate_fixation_duration, if_neg (by simp)]
        exact fixation_scan_eq_takeWhile current (q :: rest)
  · exact fixation_duration_short

theorem claim_C1_fixation_duration_witness :
    calculate_fixation_duration [((0:ℚ),(0:ℚ)), (30,0), (60,0)] =
      33 * (([((30:ℚ),(0:ℚ)), (60,0)]).takeWhile
              (fun p => decide (distSq ((0:ℚ),(0:ℚ)) p ≤ fixation_threshold ^ 2))).length
    ∧ calculate_fixation_duration [((5:ℚ),(5:ℚ))] = 0 := by
  constructor
  · exact claim_C1_fixation_duration.1 ((0:ℚ),(0:ℚ)) [(30,0), (60,0)]
  · exact claim_C1_fixation_duration.2 [((5:ℚ),(5:ℚ))] (by norm_num)

/-- Claim C1 counterexample: the claim as stated (consecutive-pair distances,
strict below-threshold accumulation, stop at-or-above threshold) disagrees
with the source behaviour.  At `[(0,0),(50,0)]` (newest first) the pair sits
exactly on the 50 px boundary: the claim yields 0 but the code accumulates
33 ms.  At `[(0,0),(40,0),(80,0)]` the consecutive-pair reading yields 66 ms
but the code, which measures every earlier sample against the NEWEST sample,
stops at `(80,0)` (distance 80 from the newest) and yields 33 ms. -/
theorem claim_C1_counterexample :
    claimed_fixation_duration [((0:ℚ),(0:ℚ)), (50,0)] ≠
      calculate_fixation_duration [((0:ℚ),(0:ℚ)), (50,0)]
    ∧ claimed_fixation_duration [((0:ℚ),(0:ℚ)), (40,0), (80,0)] ≠
      calculate_fixation_duration [((0:ℚ),(0:ℚ)), (40,0), (80,0)] := by
  constructor <;>
    norm_num [claimed_fixation_duration, calculate_fixation_duration, fixation_scan,
      distSq, fixation_threshold]

/-- Claim C8: for every gaze history with at least 2 samples the saccade
amplitude equals the Euclidean pixel distance between the two most recent
samples; for every history with fewer than 2 samples both the saccade
amplitude and the fixation duration return 0. -/
theorem claim_C8_saccade_amplitude :
    ∀ gaze_history : List Point,
      (∀ (current prev : Point) (rest : List Point),
          gaze_history = current :: prev :: rest →
          calculate_saccade_amplitude gaze_history = euclid_dist current prev)
      ∧ (gaze_history.length < 2 →
          calculate_saccade_amplitude gaze_history = 0
          ∧ calculate_fixation_duration gaze_history = 0) := by
  intro gaze_history
  constructor
  · intro current prev rest heq
    subst heq
    rw [calculate_saccade_amplitude, if_neg (by simp)]
  · intro hlen
    refine ⟨?_, fixation_duration_short gaze_history hlen⟩
    rw [calculate_saccade_amplitude.eq_def, if_pos hlen]

theorem claim_C8_saccade_amplitude_witness :
    calculate_saccade_amplitude [((0:ℚ),(0:ℚ)), (3,4)] = euclid_dist ((0:ℚ),(0:ℚ)) ((3:ℚ),(4:ℚ))
    ∧ calculate_saccade_amplitude [((7:ℚ),(7:ℚ))] = 0
    ∧ calculate_fixation_duration [((7:ℚ),(7:ℚ))] = 0 := by
  refine ⟨?_, ?_, ?_⟩
  · exact (claim_C8_saccade_amplitude [((0:ℚ),(0:ℚ)), (3,4)]).1 _ _ [] rfl
  · exact ((claim_C8_saccade_amplitude [((7:ℚ),(7:ℚ))]).2 (by norm_num)).1
  · exact ((claim_C8_saccade_amplitude [((7:ℚ),(7:ℚ))]).2 (by norm_num)).2

/-- Centroid of a list of 2D points (`np.mean(..., axis=0)`). -/
def centroid (points : List Point) : Point :=
  ((points.map Prod.fst).sum / points.length, (points.map Prod.snd).sum / points.length)

/-- `GazeAnalyzer._calculate_gaze_direction`: iris-center minus eye-center
vectors averaged over both eyes, scaled to pixel space by the frame width and
height, then shifted by the calibration offset. -/
def calculate_gaze_direction (left_eye right_eye left_iris right_iris : List Point)
    (frame_w frame_h : ℕ) (gaze_offset : Point) : Point :=
  let left_eye_center := centroid left_eye
  let right_eye_center := centroid right_eye
  let left_iris_center := centroid left_iris
  let right_iris_center := centroid right_iris
  let avg_x : ℚ :=
    ((left_iris_center.1 - left_eye_center.1) + (right_iris_center.1 - right_eye_center.1)) / 2
  let avg_y : ℚ :=
    ((left_iris_center.2 - left_eye_center.2) + (right_iris_center.2 - right_eye_center.2)) / 2
  (avg_x * frame_w + gaze_offset.1, avg_y * frame_h + gaze_offset.2)

/-- `GazeAnalyzer._calculate_eye_contact_score`: distance from the gaze point
to the frame center (integer-divided, as in Python `w // 2`), normalized by
the diagonal of a 20 percent central region, clipped to [0,1], inverted. -/
noncomputable def calculate_eye_contact_score (gaze_point : Point) (frame_w frame_h : ℕ) : ℝ :=
  let center_x : ℚ := (frame_w / 2 : ℕ)
  let center_y : ℚ := (frame_h / 2 : ℕ)
  let region_w : ℚ := frame_w * (1/5)
  let region_h : ℚ := frame_h * (1/5)
  let distance : ℝ :=
    Real.sqrt (((gaze_point.1 - center_x) ^ 2 + (gaze_point.2 - center_y) ^ 2 : ℚ) : ℝ)
  let max_distance : ℝ := Real.sqrt ((region_w ^ 2 + region_h ^ 2 : ℚ) : ℝ)
  let normalized_distance : ℝ := min (distance / max_distance) 1
  max 0 (1 - normalized_distance)

/-- `GazeAnalyzer._calculate_social_attention_score`: 0.5 when the gaze falls
in the vertical band [10 percent, 60 percent] of the frame height, plus half
the eye-contact score, clipped to 1. -/
noncomputable def calculate_social_attention_score (gaze_point : Point) (frame_w frame_h : ℕ) : ℝ :=
  let social_region_top : ℚ := frame_h * (1/10)
  let social_region_bottom : ℚ := frame_h * (3/5)
  let band : ℝ :=
    if social_region_top ≤ gaze_point.2 ∧ gaze_point.2 ≤ social_region_bottom then 1/2 else 0
  min (band + calculate_eye_contact_score gaze_point frame_w frame_h * (1/2)) 1

/-- The mutable state of a `GazeAnalyzer` instance. -/
structure GazeState where
  gaze_history : List Point
  fixation_history : List ℚ
  eye_contact_history : List ℝ
  is_calibrated : Bool
  calibration_points : List Point
  gaze_offset : Point

/-- The per-frame record returned by `GazeAnalyzer.process_frame`. -/
structure GazeData where
  timestamp : ℚ
  face_detected : Bool
  gaze_x : ℚ
  gaze_y : ℚ
  eye_contact_score : ℝ
  fixation_duration : ℕ
  saccade_amplitude : ℝ
  social_attention_score : ℝ

/-- The landmark array of one detected face (MediaPipe face mesh), indexed by
landmark number, in normalized coordinates. -/
structure FaceLandmarks where
  landmark : ℕ → Point

def LEFT_EYE_INDICES : List ℕ :=
  [33, 7, 163, 144, 145, 153, 154, 155, 133, 173, 157, 158, 159, 160, 161, 246]

def RIGHT_EYE_INDICES : List ℕ :=
  [362, 382, 381, 380, 374, 373, 390, 249, 263, 466, 388, 387, 386, 385, 384, 398]

def LEFT_IRIS_INDICES : List ℕ := [474, 475, 476, 477]

def RIGHT_IRIS_INDICES : List ℕ := [469, 470, 471, 472]

/-- `GazeAnalyzer._get_eye_landmarks` / `_get_iris_landmarks`. -/
def get_landmarks (face_landmarks : FaceLandmarks) (indices : List ℕ) : List Point :=
  indices.map face_landmarks.landmark

/-- `GazeAnalyzer.process_frame`.  The face-mesh detector is modelled as an
`Option FaceLandmarks` input (`none` when `results.multi_face_landmarks` is
empty).  The wall-clock timestamp is passed in as `t`.  The two bounded
histories are appended at the head (newest first) with eviction at 100. -/
noncomputable def process_frame (t : ℚ) (frame_w frame_h : ℕ) (st : GazeState)
    (multi_face_landmarks : Option FaceLandmarks) : GazeState × GazeData :=
  match multi_face_landmarks with
  | none =>
      (st, { timestamp := t, face_detected := false, gaze_x := 0, gaze_y := 0,
             eye_contact_score := 0, fixation_duration := 0, saccade_amplitude := 0,
             social_attention_score := 0 })
  | some face_landmarks =>
      let left_eye := get_landmarks face_landmarks LEFT_EYE_INDICES
      let right_eye := get_landmarks face_landmarks RIGHT_EYE_INDICES
      let left_iris := get_landmarks face_landmarks LEFT_IRIS_INDICES
      let right_iris := get_landmarks face_landmarks RIGHT_IRIS_INDICES
      let gaze_point :=
        calculate_gaze_direction left_eye right_eye left_iris right_iris
          frame_w frame_h st.gaze_offset
      let ecs := calculate_eye_contact_score gaze_point frame_w frame_h
      let new_history := (gaze_point :: st.gaze_history).take 100
      ({ st with
          gaze_history := new_history,
          eye_contact_history := (ecs :: st.eye_contact_history).take 100 },
       { timestamp := t, face_detected := true,
         gaze_x := gaze_point.1, gaze_y := gaze_point.2,
         eye_contact_score := ecs,
         fixation_duration := calculate_fixation_duration new_history,
         saccade_amplitude := calculate_saccade_amplitude new_history,
         social_attention_score := calculate_social_attention_score gaze_point frame_w frame_h })

/-- `GazeAnalyzer.calibrate`: with at least 4 calibration pairs, replace the
offset by the per-axis mean of (actual − measured) and report success; with
fewer, report failure and leave the state untouched. -/
structure CalibrationPair where
  actual : Point
  measured : Point

def calibrate (st : GazeState) (calibration_data : List CalibrationPair) : GazeState × Bool :=
  if 4 ≤ calibration_data.length then
    let avg_offset_x : ℚ :=
      ((calibration_data.map (fun p => p.actual.1 - p.measured.1)).sum) / calibration_data.length
    let avg_offset_y : ℚ :=
      ((calibration_data.map (fun p => p.actual.2 - p.measured.2)).sum) / calibration_data.length
    ({ st with gaze_offset := (avg_offset_x, avg_offset_y), is_calibrated := true }, true)
  else (st, false)

/-- Claim C7: the gaze estimate is additive in the calibration offset — for
every landmark input and offset (a, b), the estimate with offset (a, b) equals
the estimate with offset (0, 0) shifted componentwise by (a, b). -/
theorem claim_C7_gaze_offset_additive :
    ∀ (left_eye right_eye left_iris right_iris : List Point) (frame_w frame_h : ℕ) (a b : ℚ),
      calculate_gaze_direction left_eye right_eye left_iris right_iris frame_w frame_h (a, b) =
        ((calculate_gaze_direction left_eye right_eye left_iris right_iris frame_w frame_h (0, 0)).1 + a,
         (calculate_gaze_direction left_eye right_eye left_iris right_iris frame_w frame_h (0, 0)).2 + b) := by
  intro le re li ri w h a b
  simp only [calculate_gaze_direction, Prod.mk.injEq]
  constructor <;> ring

/-- Claim C10: a frame with no detected face returns a record with
`face_detected = false` and every numeric field equal to 0, and leaves the
analyzer state (gaze history, eye-contact history, calibration offset)
unchanged; its coordinates coincide with those of a gaze at the origin. -/
theorem claim_C10_no_face_frame :
    ∀ (t : ℚ) (frame_w frame_h : ℕ) (st : GazeState),
      process_frame t frame_w frame_h st none =
        (st, { timestamp := t, face_detected := false, gaze_x := 0, gaze_y := 0,
               eye_contact_score := 0, fixation_duration := 0, saccade_amplitude := 0,
               social_attention_score := 0 }) := by
  intro t w h st
  rfl

/-- Claim C6: with at least 4 calibration pairs the offset is replaced by the
per-axis mean of (actual − measured) and the call succeeds (4 identical pairs
give offset (0,0)); with fewer than 4 pairs the call fails and the state —
in particular the offset — is left unchanged. -/
theorem claim_C6_calibrate :
    ∀ (st : GazeState) (calibration_data : List CalibrationPair),
      (4 ≤ calibration_data.length →
          (calibrate st calibration_data).2 = true
          ∧ (calibrate st calibration_data).1.gaze_offset =
              (((calibration_data.map (fun p => p.actual.1 - p.measured.1)).sum) /
                  calibration_data.length,
               ((calibration_data.map (fun p => p.actual.2 - p.measured.2)).sum) /
                  calibration_data.length))
      ∧ ((∀ p ∈ calibration_data, p.actual = p.measured) → 4 ≤ calibration_data.length →
          (calibrate st calibration_data).1.gaze_offset = (0, 0))
      ∧ (calibration_data.length < 4 → calibrate st calibration_data = (st, false)) := by
  intro st data
  refine ⟨?_, ?_, ?_⟩
  · intro h4
    simp only [calibrate, if_pos h4]
    exact ⟨trivial, trivial⟩
  · intro heq h4
    have hx : (data.map (fun p => p.actual.1 - p.measured.1)).sum = 0 := by
      apply List.sum_eq_zero
      intro x hx
      obtain ⟨p, hp, rfl⟩ := List.mem_map.mp hx
      rw [heq p hp, sub_self]
    have hy : (data.map (fun p => p.actual.2 - p.measured.2)).sum = 0 := by
      apply List.sum_eq_zero
      intro y hy
      obtain ⟨p, hp, rfl⟩ := List.mem_map.mp hy
      rw [heq p hp, sub_self]
    simp only [calibrate, if_pos h4, hx, hy, zero_div]
  · intro hlt
    simp only [calibrate, if_neg (not_le.mpr hlt)]

/-- A concrete analyzer state used to instantiate state-dependent theorems. -/
def sample_state : GazeState :=
  { gaze_history := [], fixation_history := [], eye_contact_history := [],
    is_calibrated := false, calibration_points := [], gaze_offset := (7, 9) }

theorem claim_C6_calibrate_witness :
    (calibrate sample_state
        (List.replicate 4 ⟨((1:ℚ),(2:ℚ)), ((1:ℚ),(2:ℚ))⟩)).1.gaze_offset = (0, 0)
    ∧ calibrate sample_state
        (List.replicate 3 ⟨((1:ℚ),(2:ℚ)), ((3:ℚ),(4:ℚ))⟩) = (sample_state, false) := by
  constructor
  · exact (claim_C6_calibrate sample_state _).2.1
      (fun p hp => by rw [List.eq_of_mem_replicate hp]) (by simp)
  · exact (claim_C6_calibrate sample_state _).2.2 (by simp)

/-- A region of interest: an axis-aligned rectangle `(x1, y1, x2, y2)` as used
by the per-test processors. -/
structure Region where
  x1 : ℚ
  y1 : ℚ
  x2 : ℚ
  y2 : ℚ

/-- The containment test `region[0] <= gaze_x <= region[2] and
region[1] <= gaze_y <= region[3]` (inclusive bounds). -/
def region_contains (r : Region) (p : Point) : Prop :=
  r.x1 ≤ p.1 ∧ p.1 ≤ r.x2 ∧ r.y1 ≤ p.2 ∧ p.2 ≤ r.y2

instance (r : Region) (p : Point) : Decidable (region_contains r p) := by
  unfold region_contains
  infer_instance

/-- One category loop of `SocialAttentionProcessor.recv`: walk the region list
in order; at the first region containing the point add 1 to the category
counter, set the category flag, and break.  Returns the counter increment and
the flag. -/
def scan_regions (p : Point) : List Region → ℕ × Bool
  | [] => (0, false)
  | r :: rest => if region_contains r p then (1, true) else scan_regions p rest

/-- The index of the region the loop breaks at (the first one containing the
point), if any. -/
def first_matched_region (p : Point) : List Region → Option ℕ
  | [] => none
  | r :: rest =>
      if region_contains r p then some 0 else (first_matched_region p rest).map (· + 1)

/-- The per-sample counter update of `SocialAttentionProcessor.recv`: the
social and non-social region lists are scanned independently, each updating
its own counter and flag. -/
def recv_classify (social_regions non_social_regions : List Region) (p : Point)
    (social_attention_score non_social_attention_score : ℕ) : ℕ × ℕ × Bool × Bool :=
  let s := scan_regions p social_regions
  let n := scan_regions p non_social_regions
  (social_attention_score + s.1, non_social_attention_score + n.1, s.2, n.2)

/-- Helper: a single category scan never increments its counter by more
than 1. -/
theorem scan_regions_le_one (p : Point) (regions : List Region) :
    (scan_regions p regions).1 ≤ 1 := by
  induction regions with
  | nil => simp [scan_regions]
  | cons r rest ih =>
      by_cases h : region_contains r p <;> simp [scan_regions, h, ih]

/-- Claim C2: region classification is order-dependent and first-match-wins —
when the first two regions of a category list both contain the point, the
loop breaks at the first region (index 0) and the category counter is
incremented exactly once; moreover every category-group counter gains at most
1 per sample. -/
theorem claim_C2_first_match_wins :
    ∀ (p : Point) (r1 r2 : Region) (rest : List Region),
      region_contains r1 p → region_contains r2 p →
        first_matched_region p (r1 :: r2 :: rest) = some 0
        ∧ scan_regions p (r1 :: r2 :: rest) = (1, true)
        ∧ (∀ regions : List Region, (scan_regions p regions).1 ≤ 1)
        ∧ (∀ (social non_social : List Region) (s0 n0 : ℕ),
              (recv_classify social non_social p s0 n0).1 ≤ s0 + 1
              ∧ (recv_classify social non_social p s0 n0).2.1 ≤ n0 + 1) := by
  intro p r1 r2 rest h1 h2
  refine ⟨?_, ?_, scan_regions_le_one p, ?_⟩
  · rw [first_matched_region, if_pos h1]
  · rw [scan_regions, if_pos h1]
  · intro social non_social s0 n0
    exact ⟨Nat.add_le_add_left (scan_regions_le_one p social) s0,
           Nat.add_le_add_left (scan_regions_le_one p non_social) n0⟩

theorem claim_C2_first_match_wins_witness :
    first_matched_region ((60:ℚ), (60:ℚ))
        [⟨0, 0, 100, 100⟩, ⟨50, 50, 150, 150⟩] = some 0
    ∧ scan_regions ((60:ℚ), (60:ℚ))
        [⟨0, 0, 100, 100⟩, ⟨50, 50, 150, 150⟩] = (1, true) := by
  have h := claim_C2_first_match_wins ((60:ℚ), (60:ℚ)) ⟨0, 0, 100, 100⟩ ⟨50, 50, 150, 150⟩ []
    (by norm_num [region_contains]) (by norm_num [region_contains])
  exact ⟨h.1, h.2.1⟩

/-- Per-test qualitative risk tier (`"low"`, `"moderate"`, `"high"`). -/
inductive RiskTier
  | low
  | moderate
  | high
deriving DecidableEq

/-- One phase entry of the face-recognition results dictionary; `none` models
an empty per-phase dictionary (skipped by the `if results` guard), and a
missing key contributes 0 via `.get(..., 0)`. -/
structure FacePhaseResult where
  face_attention_time : ℕ
  object_attention_time : ℕ

def total_face_attention (face_results : List (Option FacePhaseResult)) : ℕ :=
  ((face_results.filterMap id).map (fun r => r.face_attention_time)).sum

def total_object_attention (face_results : List (Option FacePhaseResult)) : ℕ :=
  ((face_results.filterMap id).map (fun r => r.object_attention_time)).sum

/-- The tier thresholds of `analyze_face_recognition_results`:
`score >= 0.6` low, `score >= 0.4` moderate, otherwise high. -/
def face_risk_level (face_preference_score : ℚ) : RiskTier :=
  if 3/5 ≤ face_preference_score then .low
  else if 2/5 ≤ face_preference_score then .moderate
  else .high

/-- The slice of the record returned by `analyze_face_recognition_results`
that the claims concern. -/
structure FaceAnalysis where
  face_preference_score : ℚ
  risk_level : RiskTier
  total_attention_points : ℕ

/-- `analyze_face_recognition_results` (results_analysis.py): sum the per
phase face and object attention times, divide the face total by the grand
total floored at 1, and tier the ratio. -/
def analyze_face_recognition_results (face_results : List (Option FacePhaseResult)) :
    FaceAnalysis :=
  let total_face := total_face_attention face_results
  let total_object := total_object_attention face_results
  let total_attention := total_face + total_object
  let face_preference_score : ℚ := (total_face : ℚ) / ((max total_attention 1 : ℕ) : ℚ)
  { face_preference_score := face_preference_score,
    risk_level := face_risk_level face_preference_score,
    total_attention_points := total_attention }

/-- Claim C3: the aggregated face-preference ratio is total face attention
over the face-plus-object total floored at 1, and the tier thresholds are
exact: 0.6 and above is low (0.6 itself included), 0.4 up to but excluding
0.6 is moderate (0.4 itself included), below 0.4 is high. -/
theorem claim_C3_face_preference :
    ∀ face_results : List (Option FacePhaseResult),
      (analyze_face_recognition_results face_results).face_preference_score =
        (total_face_attention face_results : ℚ) /
          ((max (total_face_attention face_results + total_object_attention face_results) 1 : ℕ) : ℚ)
      ∧ (analyze_face_recognition_results face_results).risk_level =
          face_risk_level ((analyze_face_recognition_results face_results).face_preference_score)
      ∧ (∀ s : ℚ, 3/5 ≤ s → face_risk_level s = .low)
      ∧ (∀ s : ℚ, 2/5 ≤ s → s < 3/5 → face_risk_level s = .moderate)
      ∧ (∀ s : ℚ, s < 2/5 → face_risk_level s = .high)
      ∧ face_risk_level (3/5) = .low ∧ face_risk_level (2/5) = .moderate := by
  intro face_results
  refine ⟨rfl, rfl, ?_, ?_, ?_, ?_, ?_⟩
  · intro s hs
    rw [face_risk_level, if_pos hs]
  · intro s hs1 hs2
    rw [face_risk_level, if_neg (not_le.mpr hs2), if_pos hs1]
  · intro s hs
    have h1 : ¬ (3/5 : ℚ) ≤ s := by linarith
    have h2 : ¬ (2/5 : ℚ) ≤ s := by linarith
    rw [face_risk_level, if_neg h1, if_neg h2]
  · rw [face_risk_level, if_pos (le_refl _)]
  · rw [face_risk_level, if_neg (by norm_num), if_pos (le_refl _)]

theorem claim_C3_face_preference_witness :
    (analyze_face_recognition_results [some ⟨180, 0⟩, none, some ⟨0, 90⟩]).face_preference_score =
      ((180 : ℕ) : ℚ) / ((max (180 + 90) 1 : ℕ) : ℚ)
    ∧ face_risk_level (599999/1000000) = .moderate
    ∧ face_risk_level (399999/1000000) = .high := by
  refine ⟨?_, ?_, ?_⟩
  · have h := (claim_C3_face_preference [some ⟨180, 0⟩, none, some ⟨0, 90⟩]).1
    simpa [total_face_attention, total_object_attention] using h
  · exact (claim_C3_face_preference []).2.2.2.1 (599999/1000000) (by norm_num) (by norm_num)
  · exact (claim_C3_face_preference []).2.2.2.2.1 (399999/1000000) (by norm_num)

/-- The cross-task overall risk label (`calculate_overall_risk`). -/
inductive OverallRisk
  | low
  | moderate
  | high
  | insufficient_data
deriving DecidableEq

/-- The ordinal mapping `{'low': 0, 'moderate': 1, 'high': 2}`. -/
def risk_value : RiskTier → ℕ
  | .low => 0
  | .moderate => 1
  | .high => 2

/-- The mean ordinal risk over a list of per-test tiers. -/
def avg_risk_score (risk_indicators : List RiskTier) : ℚ :=
  (((risk_indicators.map risk_value).sum : ℕ) : ℚ) / (risk_indicators.length : ℚ)

/-- `calculate_overall_risk` (results_analysis.py): empty input is
`insufficient_data`; otherwise threshold the mean ordinal risk at 0.5 and
1.2. -/
def calculate_overall_risk (risk_indicators : List RiskTier) : OverallRisk :=
  if risk_indicators.isEmpty then .insufficient_data
  else if avg_risk_score risk_indicators ≤ 1/2 then .low
  else if avg_risk_score risk_indicators ≤ 6/5 then .moderate
  else .high

/-- `confidence_level = min(total_tests * 0.25, 1.0)` from
`generate_comprehensive_analysis`. -/
def confidence_level (total_tests : ℕ) : ℚ :=
  min ((total_tests : ℚ) * (1/4)) 1

/-- The slice of `generate_comprehensive_analysis` that produces the overall
risk and the confidence: each entry is `none` for an unattempted test (no
risk indicator added, not counted) and `some tier` for a completed one. -/
def overall_risk_and_confidence (test_results : List (Option RiskTier)) : OverallRisk × ℚ :=
  let completed := test_results.filterMap id
  (calculate_overall_risk completed, confidence_level completed.length)

/-- Claim C4: the cross-task overall risk averages the ordinal tiers of the
completed tests only (an unattempted test is excluded, not defaulted),
thresholds the mean at 0.5 and 1.2, and the confidence is 0.25 per completed
test capped at 1; two completed tests of tiers low and high give mean 1,
tier moderate, confidence 0.5. -/
theorem claim_C4_overall_risk :
    (∀ test_results : List (Option RiskTier),
        overall_risk_and_confidence (none :: test_results) =
          overall_risk_and_confidence test_results)
    ∧ (∀ tiers : List RiskTier, tiers ≠ [] →
        (avg_risk_score tiers ≤ 1/2 → calculate_overall_risk tiers = .low)
        ∧ (1/2 < avg_risk_score tiers → avg_risk_score tiers ≤ 6/5 →
            calculate_overall_risk tiers = .moderate)
        ∧ (6/5 < avg_risk_score tiers → calculate_overall_risk tiers = .high))
    ∧ (∀ n : ℕ, confidence_level n = min ((n : ℚ) * (1/4)) 1)
    ∧ overall_risk_and_confidence [some .low, some .high] = (.moderate, 1/2) := by
  refine ⟨?_, ?_, fun n => rfl, ?_⟩
  · intro test_results
    rfl
  · intro tiers hne
    have hemp : tiers.isEmpty = false := by
      cases tiers with
      | nil => exact absurd rfl hne
      | cons a l => rfl
    refine ⟨?_, ?_, ?_⟩
    · intro h
      rw [calculate_overall_risk, hemp, if_neg (by simp), if_pos h]
    · intro h1 h2
      rw [calculate_overall_risk, hemp, if_neg (by simp), if_neg (not_le.mpr h1), if_pos h2]
    · intro h
      rw [calculate_overall_risk, hemp, if_neg (by simp),
        if_neg (not_le.mpr (by linarith)), if_neg (not_le.mpr h)]
  · have h2 : avg_risk_score [.low, .high] = 1 := by
      norm_num [avg_risk_score, risk_value]
    have : calculate_overall_risk [.low, .high] = .moderate := by
      rw [calculate_overall_risk, if_neg (by simp), if_neg (by rw [h2]; norm_num),
        if_pos (by rw [h2]; norm_num)]
    simp only [overall_risk_and_confidence, List.filterMap, id]
    rw [this]
    norm_num [confidence_level]

theorem claim_C4_overall_risk_witness :
    calculate_overall_risk [RiskTier.low, RiskTier.high] = OverallRisk.moderate
    ∧ calculate_overall_risk [RiskTier.low] = OverallRisk.low
    ∧ calculate_overall_risk [RiskTier.high, RiskTier.high] = OverallRisk.high := by
  refine ⟨?_, ?_, ?_⟩
  · exact ((claim_C4_overall_risk.2.1 [RiskTier.low, RiskTier.high] (by simp)).2.1
      (by norm_num [avg_risk_score, risk_value]) (by norm_num [avg_risk_score, risk_value]))
  · exact ((claim_C4_overall_risk.2.1 [RiskTier.low] (by simp)).1
      (by norm_num [avg_risk_score, risk_value]))
  · exact ((claim_C4_overall_risk.2.1 [RiskTier.high, RiskTier.high] (by simp)).2.2
      (by norm_num [avg_risk_score, risk_value]))

/-- One ensemble member output: a binary label from `model.predict` and the
class-probability pair from `model.predict_proba`. -/
structure ClassifierOutput where
  label : Bool
  prob_typical : ℚ
  prob_asd_indicators : ℚ

/-- The `max(set(predictions.values()), key=list(predictions.values()).count)`
fusion: the label with the strictly larger vote count wins (with three binary
voters a tie is impossible, so the arbitrary tie order never fires). -/
def majority_vote (votes : List Bool) : Bool :=
  votes.count false < votes.count true

/-- The record assembled by `BehavioralModel.predict`. -/
structure PredictionResult where
  prediction : Bool
  confidence : ℚ
  probability_typical : ℚ
  probability_asd_indicators : ℚ

/-- `BehavioralModel.predict` fusion step over the three trained classifiers
(random forest, gradient boosting, logistic regression): majority-vote label
and unweighted mean probabilities. -/
def predict_ensemble (random_forest gradient_boosting logistic_regression : ClassifierOutput) :
    PredictionResult :=
  let avg_prob_typical : ℚ :=
    (random_forest.prob_typical + gradient_boosting.prob_typical
      + logistic_regression.prob_typical) / 3
  let avg_prob_asd : ℚ :=
    (random_forest.prob_asd_indicators + gradient_boosting.prob_asd_indicators
      + logistic_regression.prob_asd_indicators) / 3
  { prediction :=
      majority_vote [random_forest.label, gradient_boosting.label, logistic_regression.label],
    confidence := max avg_prob_typical avg_prob_asd,
    probability_typical := avg_prob_typical,
    probability_asd_indicators := avg_prob_asd }

/-- The three-tier label of `show_summary_results` (results.py). -/
inductive SummaryRiskLevel
  | low
  | moderate
  | elevated
deriving DecidableEq

/-- The bucketing of the fused ASD-indicator probability in
`show_summary_results`: `< 0.3` low, `< 0.6` moderate, otherwise elevated. -/
def categorize_risk_level (risk_score : ℚ) : SummaryRiskLevel :=
  if risk_score < 3/10 then .low
  else if risk_score < 3/5 then .moderate
  else .elevated

/-- Claim C5: the fused label is the majority vote of the three classifier
labels, the fused probability is the unweighted mean of the three positive
class probabilities, and the probability is bucketed `< 0.3` low, `< 0.6`
moderate, `>= 0.6` elevated with the 0.6 boundary inclusive; labels
`[1,1,0]` with probabilities `[0.8, 0.7, 0.3]` give label 1, fused
probability 0.6, bucket elevated. -/
theorem claim_C5_ensemble_fusion :
    ∀ random_forest gradient_boosting logistic_regression : ClassifierOutput,
      ((predict_ensemble random_forest gradient_boosting logistic_regression).prediction = true ↔
          2 ≤ ([random_forest.label, gradient_boosting.label,
                logistic_regression.label].count true))
      ∧ (predict_ensemble random_forest gradient_boosting
            logistic_regression).probability_asd_indicators =
          (random_forest.prob_asd_indicators + gradient_boosting.prob_asd_indicators
            + logistic_regression.prob_asd_indicators) / 3
      ∧ (∀ s : ℚ, (s < 3/10 → categorize_risk_level s = .low)
          ∧ (3/10 ≤ s → s < 3/5 → categorize_risk_level s = .moderate)
          ∧ (3/5 ≤ s → categorize_risk_level s = .elevated))
      ∧ (predict_ensemble ⟨true, 1/5, 4/5⟩ ⟨true, 3/10, 7/10⟩ ⟨false, 7/10, 3/10⟩).prediction = true
      ∧ (predict_ensemble ⟨true, 1/5, 4/5⟩ ⟨true, 3/10, 7/10⟩
            ⟨false, 7/10, 3/10⟩).probability_asd_indicators = 3/5
      ∧ categorize_risk_level (3/5) = .elevated := by
  intro rf gb lr
  refine ⟨?_, rfl, ?_, ?_, ?_, ?_⟩
  · cases hrf : rf.label <;> cases hgb : gb.label <;> cases hlr : lr.label <;>
      simp [predict_ensemble, majority_vote, hrf, hgb, hlr]
  · intro s
    refine ⟨?_, ?_, ?_⟩
    · intro h
      rw [categorize_risk_level, if_pos h]
    · intro h1 h2
      rw [categorize_risk_level, if_neg (not_lt.mpr h1), if_pos h2]
    · intro h
      rw [categorize_risk_level, if_neg (not_lt.mpr (by linarith)), if_neg (not_lt.mpr h)]
  · simp [predict_ensemble, majority_vote]
  · norm_num [predict_ensemble]
  · rw [categorize_risk_level, if_neg (by norm_num), if_neg (by norm_num)]

theorem claim_C5_ensemble_fusion_witness :
    categorize_risk_level (1/5) = SummaryRiskLevel.low
    ∧ categorize_risk_level (1/2) = SummaryRiskLevel.moderate
    ∧ categorize_risk_level (7/10) = SummaryRiskLevel.elevated := by
  have h := (claim_C5_ensemble_fusion ⟨true, 0, 1⟩ ⟨true, 0, 1⟩ ⟨false, 1, 0⟩).2.2.1
  exact ⟨(h (1/5)).1 (by norm_num),
         (h (1/2)).2.1 (by norm_num) (by norm_num),
         (h (7/10)).2.2 (by norm_num)⟩

/-- The questionnaire item identifiers (keys of
`DataProcessor.questionnaire_weights`). -/
inductive Question
  | enjoys_being_swung
  | interest_in_other_children
  | enjoys_climbing
  | enjoys_peek_a_boo
  | pretend_play
  | uses_index_finger
  | brings_objects_to_show
  | eye_contact
  | unusual_finger_movements
  | tries_to_attract_attention
  | notices_small_sounds
  | concentrates_on_whole_picture
  | easy_to_do_several_things
  | enjoys_social_chit_chat
  | finds_easy_to_read_between_lines
  | knows_how_to_tell_stories
  | drawn_to_people
  | enjoys_social_activities
  | finds_easy_to_work_out_intentions
  | good_at_social_chit_chat
deriving DecidableEq

/-- The static per-question weight table `DataProcessor.questionnaire_weights`. -/
def questionnaire_weights : Question → ℚ
  | .enjoys_being_swung => 4/5
  | .interest_in_other_children => 1
  | .enjoys_climbing => 3/5
  | .enjoys_peek_a_boo => 9/10
  | .pretend_play => 1
  | .uses_index_finger => 4/5
  | .brings_objects_to_show => 1
  | .eye_contact => 1
  | .unusual_finger_movements => 9/10
  | .tries_to_attract_attention => 9/10
  | .notices_small_sounds => 7/10
  | .concentrates_on_whole_picture => 3/5
  | .easy_to_do_several_things => 7/10
  | .enjoys_social_chit_chat => 9/10
  | .finds_easy_to_read_between_lines => 4/5
  | .knows_how_to_tell_stories => 7/10
  | .drawn_to_people => 9/10
  | .enjoys_social_activities => 9/10
  | .finds_easy_to_work_out_intentions => 4/5
  | .good_at_social_chit_chat => 9/10

/-- The four behavioral domains of `DataProcessor._calculate_domain_scores`. -/
inductive Domain
  | social_communication
  | repetitive_behaviors
  | social_cognition
  | adaptive_functioning
deriving DecidableEq

/-- The static grouping of questions into domains. -/
def domain_questions : Domain → List Question
  | .social_communication =>
      [.interest_in_other_children, .enjoys_peek_a_boo, .brings_objects_to_show,
       .eye_contact, .tries_to_attract_attention, .enjoys_social_chit_chat,
       .drawn_to_people, .enjoys_social_activities]
  | .repetitive_behaviors =>
      [.unusual_finger_movements, .notices_small_sounds, .concentrates_on_whole_picture]
  | .social_cognition =>
      [.pretend_play, .finds_easy_to_read_between_lines, .knows_how_to_tell_stories,
       .finds_easy_to_work_out_intentions, .good_at_social_chit_chat]
  | .adaptive_functioning =>
      [.enjoys_being_swung, .enjoys_climbing, .uses_index_finger, .easy_to_do_several_things]

/-- Dictionary lookup (`question in answers` / `answers[question]`), modelled
as first-match lookup in an association list. -/
def find_answer (q : Question) : List (Question × ℚ) → Option ℚ
  | [] => none
  | (q2, a) :: rest => if q2 = q then some a else find_answer q rest

/-- One domain score of `DataProcessor._calculate_domain_scores`: sum the
responses of the answered questions of the domain and divide by their count;
0 when no domain question is answered. -/
def calculate_domain_score (answers : List (Question × ℚ)) (d : Domain) : ℚ :=
  let vals := (domain_questions d).filterMap (fun q => find_answer q answers)
  if vals.length = 0 then 0 else vals.sum / (vals.length : ℚ)

/-- The domain score as the specification claim words it: a WEIGHTED mean of
the answered responses using the static weight table.  Kept only for
comparison against the source behaviour (`calculate_domain_score`). -/
def claimed_domain_score (answers : List (Question × ℚ)) (d : Domain) : ℚ :=
  let pairs := (domain_questions d).filterMap
      (fun q => (find_answer q answers).map (fun a => (a, questionnaire_weights q)))
  let total_weight := (pairs.map Prod.snd).sum
  if total_weight = 0 then 0
  else (pairs.map (fun x => x.1 * x.2)).sum / total_weight

/-- Claim C9 (amended): each of the four domain scores is the UNWEIGHTED
arithmetic mean of the item responses present in the answer map for that
domain (the static per-question weight table is not consulted for domain
scores); questions absent from the answer map are excluded from the mean
rather than defaulted, and a domain with no answered question scores 0. -/
theorem claim_C9_domain_scores :
    ∀ (answers : List (Question × ℚ)) (d : Domain),
      ((domain_questions d).filterMap (fun q => find_answer q answers) = [] →
          calculate_domain_score answers d = 0)
      ∧ ((domain_questions d).filterMap (fun q => find_answer q answers) ≠ [] →
          calculate_domain_score answers d *
              (((domain_questions d).filterMap (fun q => find_answer q answers)).length : ℚ) =
            ((domain_questions d).filterMap (fun q => find_answer q answers)).sum) := by
  intro answers d
  constructor
  · intro h
    rw [calculate_domain_score]
    simp [h]
  · intro h
    have hlen : ((domain_questions d).filterMap (fun q => find_answer q answers)).length ≠ 0 :=
      fun hc => h (List.length_eq_zero.mp hc)
    have hcast : ((((domain_questions d).filterMap
        (fun q => find_answer q answers)).length : ℕ) : ℚ) ≠ 0 := Nat.cast_ne_zero.mpr hlen
    rw [calculate_domain_score]
    simp only [if_neg hlen]
    exact div_mul_cancel₀ _ hcast

theorem claim_C9_domain_scores_witness :
    calculate_domain_score
        [(Question.interest_in_other_children, 1), (Question.enjoys_peek_a_boo, 0)]
        Domain.social_communication * (2 : ℚ) = 1
    ∧ calculate_domain_score [] Domain.social_cognition = 0 := by
  constructor
  · have h := (claim_C9_domain_scores
        [(Question.interest_in_other_children, 1), (Question.enjoys_peek_a_boo, 0)]
        Domain.social_communication).2 (by simp +decide [domain_questions, find_answer])
    simp +decide [domain_questions, find_answer] at h
    convert h using 2
  · exact (claim_C9_domain_scores [] Domain.social_cognition).1
      (by simp +decide [domain_questions, find_answer])

/-- Claim C9 counterexample: with `interest_in_other_children` (weight 1.0)
answered 1 and `enjoys_peek_a_boo` (weight 0.9) answered 0, the weighted mean
the claim describes is `1/1.9 = 10/19` while the source computes the
unweighted mean `1/2`. -/
theorem claim_C9_counterexample :
    claimed_domain_score
        [(Question.interest_in_other_children, 1), (Question.enjoys_peek_a_boo, 0)]
        Domain.social_communication ≠
      calculate_domain_score
        [(Question.interest_in_other_children, 1), (Question.enjoys_peek_a_boo, 0)]
        Domain.social_communication := by
  simp +decide [claimed_domain_score, calculate_domain_score, domain_questions, find_answer,
    questionnaire_weights]
  norm_num
